import Mathlib

/-!
Shallow embedding of `model.py` (a Diffusion-Transformer building-block
library) and verification of its specified properties.

Tensors are modelled as real-valued functions on natural-number indices,
with the runtime dimensions carried alongside explicitly.  Entries outside
the declared dimensions are junk and never inspected by the theorems.
Python floats are modelled as real numbers; random draws (weight
initialization, dropout masks, label-dropout coin flips) are passed in
explicitly as function arguments.
-/

open Finset

/-- Weight and bias of one `nn.Linear` layer, as produced by the framework's
default initialization draw (PyTorch draws Kaiming-uniform values in
`[-1/sqrt fan_in, 1/sqrt fan_in]`; the draw is passed in explicitly). -/
structure LinearDraw where
  W : ℕ → ℕ → ℝ
  b : ℕ → ℝ

/-- The all-zero initialization draw, used to instantiate concrete modules. -/
def zeroDraw : LinearDraw := { W := fun _ _ => 0, b := fun _ => 0 }

noncomputable section

/-- Logistic sigmoid, used by `nn.SiLU`. -/
def sigmoid (x : ℝ) : ℝ := 1 / (1 + Real.exp (-x))

/-- `nn.SiLU` activation: `x * sigmoid x`. -/
def silu (x : ℝ) : ℝ := x * sigmoid x

/-- `nn.GELU(approximate="tanh")` activation (model.py line 268). -/
def geluTanh (x : ℝ) : ℝ :=
  (1 / 2) * x * (1 + Real.tanh (Real.sqrt (2 / Real.pi) * (x + (44715 / 1000000) * x ^ 3)))

/-- `nn.Linear` applied to the last axis of a 2-D tensor `[B, inF] -> [B, outF]`. -/
def linear2 (inF : ℕ) (W : ℕ → ℕ → ℝ) (bias : ℕ → ℝ) (x : ℕ → ℕ → ℝ) : ℕ → ℕ → ℝ :=
  fun b o => (∑ h ∈ range inF, W o h * x b h) + bias o

/-- `nn.Linear` applied to the last axis of a 3-D tensor `[B, T, inF] -> [B, T, outF]`. -/
def linear3 (inF : ℕ) (W : ℕ → ℕ → ℝ) (bias : ℕ → ℝ) (x : ℕ → ℕ → ℕ → ℝ) : ℕ → ℕ → ℕ → ℝ :=
  fun b l o => (∑ h ∈ range inF, W o h * x b l h) + bias o

/-- Bias vector of an `nn.Linear` built with a `bias` flag: absent bias is zero. -/
def biasIf (flag : Bool) (b : ℕ → ℝ) : ℕ → ℝ :=
  fun o => if flag then b o else 0

/-- `modulate` (model.py lines 28-29): `tensor * (1 + scale.unsqueeze(1)) + shift.unsqueeze(1)`,
`shift`/`scale` of shape `[B, H]` broadcast over the token axis of `tensor : [B, T, H]`. -/
def modulate (tensor : ℕ → ℕ → ℕ → ℝ) (shift scale : ℕ → ℕ → ℝ) : ℕ → ℕ → ℕ → ℝ :=
  fun b l h => tensor b l h * (1 + scale b h) + shift b h

/-- Non-affine `nn.LayerNorm` over the last axis of length `H` with the given `eps`:
subtract the mean, divide by the square root of the biased variance plus `eps`. -/
def layerNormBase (H : ℕ) (eps : ℝ) (x : ℕ → ℕ → ℕ → ℝ) : ℕ → ℕ → ℕ → ℝ :=
  fun b l h =>
    (x b l h - (∑ i ∈ range H, x b l i) / H) /
      Real.sqrt ((∑ i ∈ range H, (x b l i - (∑ i2 ∈ range H, x b l i2) / H) ^ 2) / H + eps)

/-- `nn.LayerNorm` with an `elementwise_affine` flag and its learned parameters
(initialized by the framework to weight 1, bias 0). -/
def layerNormAff (H : ℕ) (eps : ℝ) (affine : Bool) (g bt : ℕ → ℝ)
    (x : ℕ → ℕ → ℕ → ℝ) : ℕ → ℕ → ℕ → ℝ :=
  fun b l h =>
    if affine then g h * layerNormBase H eps x b l h + bt h
    else layerNormBase H eps x b l h

/-- Inverted dropout in training mode (`nn.Dropout(p)`): the realized Bernoulli
keep-mask is passed in explicitly; kept entries are scaled by `1/(1-p)`. -/
def dropout (p : ℝ) (keep : ℕ → ℕ → ℕ → Bool) (x : ℕ → ℕ → ℕ → ℝ) : ℕ → ℕ → ℕ → ℝ :=
  fun b l h => if keep b l h then x b l h / (1 - p) else 0

/-- The `Attention` module (model.py lines 148-241): all six projection
parameters exist after `__init__` (lines 166-174), whether or not `forward`
uses them. -/
structure Attention where
  num_heads : ℕ
  div_dimension : ℕ
  dim : ℕ
  Wq : ℕ → ℕ → ℝ
  bq : ℕ → ℝ
  Wk : ℕ → ℕ → ℝ
  bk : ℕ → ℝ
  Wv : ℕ → ℕ → ℝ
  bv : ℕ → ℝ

/-- `Attention.__init__` (model.py lines 156-174).  Python raises
`ZeroDivisionError` on `attention_dimension % 0`, and the `assert` on line 159
fails when the dimension is not divisible by the head count; both are modelled
as `none`.  `div_dimension` is `int(attention_dimension / attention_heads)`,
exact under the divisibility assertion. -/
def attentionInit (attention_dimension attention_heads : ℕ)
    (dq dk dv : LinearDraw) : Option Attention :=
  if attention_heads = 0 then none
  else if attention_dimension % attention_heads = 0 then
    some { num_heads := attention_heads,
           div_dimension := attention_dimension / attention_heads,
           dim := attention_dimension,
           Wq := dq.W, bq := dq.b,
           Wk := dk.W, bk := dk.b,
           Wv := dv.W, bv := dv.b }
  else none

/-- Lines 185-209 of `Attention.forward`, for each of query/key/value: apply
`self.query_projection` (the source projects all three inputs with the query
projection, lines 185, 188, 191), `.view(B, -1, N, D)` (feature `f = n*D + d`),
`.permute(2, 0, 1, 3)` and `.view(B*N, -1, D)`.  The permuted tensor is
`(N, B, L, D)`-contiguous, so merged row `m` decomposes head-major as
`n = m / B`, `b = m % B`. -/
def projMerged (A : Attention) (Bsz : ℕ) (x : ℕ → ℕ → ℕ → ℝ) : ℕ → ℕ → ℕ → ℝ :=
  fun m l d =>
    (∑ h ∈ range A.dim, A.Wq (m / Bsz * A.div_dimension + d) h * x (m % Bsz) l h) +
      A.bq (m / Bsz * A.div_dimension + d)

/-- Line 211: `torch.bmm(query, key.transpose(1, 2)) / np.sqrt(div_dimension)`. -/
def attentionScore (A : Attention) (Bsz : ℕ) (q k : ℕ → ℕ → ℕ → ℝ) : ℕ → ℕ → ℕ → ℝ :=
  fun m i j =>
    (∑ d ∈ range A.div_dimension, projMerged A Bsz q m i d * projMerged A Bsz k m j d) /
      Real.sqrt (A.div_dimension : ℝ)

/-- Lines 215-221: when a `[B, Qlen, Klen]` mask is supplied it is
`unsqueeze(1).repeat(1, N, 1, 1)`-ed to `(B, N, Q, K)` and then `view`-ed onto
the `(B*N, Q, K)` score tensor, so score row `m` receives the mask row of
batch `m / N` (batch-major flattening).  A filled `-inf` entry is `none`. -/
def maskedScore (A : Attention) (Bsz : ℕ) (q k : ℕ → ℕ → ℕ → ℝ)
    (mask : Option (ℕ → ℕ → ℕ → Bool)) : ℕ → ℕ → ℕ → Option ℝ :=
  fun m i j =>
    match mask with
    | none => some (attentionScore A Bsz q k m i j)
    | some msk =>
        if msk (m / A.num_heads) i j then none else some (attentionScore A Bsz q k m i j)

/-- Exponential of a possibly `-inf` score: `exp (-inf) = 0`. -/
def expVal : Option ℝ → ℝ
  | none => 0
  | some s => Real.exp s

/-- Line 223: `F.softmax(attention_score, dim=-1)` over the key axis of length
`L`.  (When an entire row is `-inf`-filled the float code yields NaN; this
model then yields `0/0 = 0`; no theorem below relies on that row.) -/
def attentionMatrix (A : Attention) (Bsz L : ℕ) (q k : ℕ → ℕ → ℕ → ℝ)
    (mask : Option (ℕ → ℕ → ℕ → Bool)) : ℕ → ℕ → ℕ → ℝ :=
  fun m i j =>
    expVal (maskedScore A Bsz q k mask m i j) /
      ∑ j2 ∈ range L, expVal (maskedScore A Bsz q k mask m i j2)

/-- Lines 224-230: `context = bmm(attention_matrix, value)`, then
`.view(N, B, -1, D)`, `.permute(1, 2, 0, 3)`, `.view(B, -1, N*D)`: output
feature `f` reads merged row `(f / D) * B + b`, lane `f % D`. -/
def attentionContext (A : Attention) (Bsz L : ℕ) (q k v : ℕ → ℕ → ℕ → ℝ)
    (mask : Option (ℕ → ℕ → ℕ → Bool)) : ℕ → ℕ → ℕ → ℝ :=
  fun b l f =>
    ∑ j ∈ range L,
      attentionMatrix A Bsz L q k mask (f / A.div_dimension * Bsz + b) l j *
        projMerged A Bsz v (f / A.div_dimension * Bsz + b) j (f % A.div_dimension)

/-- The middle (`-1`) dimension that `.view(batch_size * num_heads, -1, D)`
infers for the projected tensors: total element count divided by the known
dimensions. -/
def attnMergedLen (A : Attention) (Bsz T : ℕ) : ℕ :=
  Bsz * T * (A.num_heads * A.div_dimension) / (Bsz * A.num_heads * A.div_dimension)

/-- Shape of the returned attention-weight tensor: `bmm` of
`(B*N, qlen, D)` with `(B*N, D, klen)`. -/
def attentionWeightDims (A : Attention) (Bsz T : ℕ) : ℕ × ℕ × ℕ :=
  (Bsz * A.num_heads, attnMergedLen A Bsz T, attnMergedLen A Bsz T)

/-- Shape of the returned context tensor after the final
`.view(batch_size, -1, num_heads * div_dimension)` (line 229). -/
def attentionContextDims (A : Attention) (Bsz T : ℕ) : ℕ × ℕ × ℕ :=
  (Bsz,
   Bsz * A.num_heads * attnMergedLen A Bsz T * A.div_dimension /
     (Bsz * (A.num_heads * A.div_dimension)),
   A.num_heads * A.div_dimension)

/-- The `TimestepEmbedder` module (model.py lines 45-99): the stored
frequency-embedding size and the two perceptron linear layers. -/
structure TimestepEmbedder where
  timestep_hidden_size : ℕ
  frequency_embedding_size : ℕ
  perceptron_bias : Bool
  W1 : ℕ → ℕ → ℝ
  b1 : ℕ → ℝ
  W2 : ℕ → ℕ → ℝ
  b2 : ℕ → ℝ

/-- `TimestepEmbedder.__init__` (lines 50-66): `perceptron` is
`Linear(F, H) -> SiLU -> Linear(H, H)` with the shared bias flag. -/
def timestepEmbedderInit (timestep_hidden_size frequency_embedding_size : ℕ)
    (perceptron_bias : Bool) (d1 d2 : LinearDraw) : TimestepEmbedder :=
  { timestep_hidden_size := timestep_hidden_size,
    frequency_embedding_size := frequency_embedding_size,
    perceptron_bias := perceptron_bias,
    W1 := d1.W, b1 := d1.b, W2 := d2.W, b2 := d2.b }

/-- `half = embedding_size // 2` (line 72). -/
def timeStepperHalf (F : ℕ) : ℕ := F / 2

/-- Line 73-77: `exp(-log(max_period) * arange(half) / half)`, elementwise
at index `i` (the `max_period` default is 10000). -/
def timeStepperFreq (F : ℕ) (maxPeriod : ℝ) (i : ℕ) : ℝ :=
  Real.exp (-Real.log maxPeriod * i / (timeStepperHalf F : ℝ))

/-- Column count of the tensor `time_stepper` returns: `cat([cos, sin])` has
`2 * half` columns, and the odd-size pad (lines 82-85) appends
`zeros_like(embedding[:, :1])`, whose column count is `min 1 (2 * half)` —
zero, not one, when the embedding is already empty. -/
def timeStepperWidth (F : ℕ) : ℕ :=
  2 * timeStepperHalf F + (if F % 2 = 1 then min 1 (2 * timeStepperHalf F) else 0)

/-- Entries of the `time_stepper` output (lines 79-87): `args = t[:, None] *
frequency[None]`; columns `[0, half)` are cosines, `[half, 2*half)` sines,
and any pad column is zero. -/
def timeStepperEnt (F : ℕ) (t : ℕ → ℝ) : ℕ → ℕ → ℝ :=
  fun b j =>
    if j < timeStepperHalf F then Real.cos (t b * timeStepperFreq F 10000 j)
    else if j < 2 * timeStepperHalf F then
      Real.sin (t b * timeStepperFreq F 10000 (j - timeStepperHalf F))
    else 0

/-- An `nn.Linear` applied to a 2-D tensor carrying its runtime column count:
the framework raises a shape-mismatch error (here `none`) unless the input's
column count equals `in_features`. -/
def linearChecked (inF outF : ℕ) (W : ℕ → ℕ → ℝ) (bias : ℕ → ℝ)
    (src : ℕ × (ℕ → ℕ → ℝ)) : Option (ℕ × (ℕ → ℕ → ℝ)) :=
  if src.1 = inF then
    some (outF, fun b o => (∑ h ∈ range inF, W o h * src.2 b h) + bias o)
  else none

/-- `TimestepEmbedder.forward` (lines 89-99): `time_stepper` then the
perceptron `Linear(F, H) -> SiLU -> Linear(H, H)`.  The result carries its
column count; a shape mismatch inside the perceptron is `none`. -/
def timestepForward (E : TimestepEmbedder) (t : ℕ → ℝ) : Option (ℕ × (ℕ → ℕ → ℝ)) :=
  (linearChecked E.frequency_embedding_size E.timestep_hidden_size E.W1
      (biasIf E.perceptron_bias E.b1)
      (timeStepperWidth E.frequency_embedding_size,
       timeStepperEnt E.frequency_embedding_size t)).bind
    (fun h1 =>
      linearChecked E.timestep_hidden_size E.timestep_hidden_size E.W2
        (biasIf E.perceptron_bias E.b2)
        (h1.1, fun b o => silu (h1.2 b o)))

/-- The `LabelEmbedder` module (model.py lines 103-144).  The dropout
probability is a rational (exact) number; the embedding table's row count is
fixed at construction. -/
structure LabelEmbedder where
  num_classes : ℕ
  hidden_size : ℕ
  dropout_prob : ℚ
  table_rows : ℕ
  table : ℕ → ℕ → ℝ

/-- `LabelEmbedder.__init__` (lines 109-118): `use_config_embedding =
dropout_prob > 0` and the table has `num_classes + use_config_embedding`
rows (Python adds the boolean as 0 or 1). -/
def labelEmbedderInit (num_classes hidden_size : ℕ) (dropout_prob : ℚ)
    (table : ℕ → ℕ → ℝ) : LabelEmbedder :=
  { num_classes := num_classes,
    hidden_size := hidden_size,
    dropout_prob := dropout_prob,
    table_rows := num_classes + (if 0 < dropout_prob then 1 else 0),
    table := table }

/-- `token_dropper` (lines 120-128): `torch.where(rand < p, num_classes,
labels)`; the realized coin flips `rand < p` are passed in as `drop`. -/
def tokenDropper (E : LabelEmbedder) (drop : ℕ → Bool) (labels : ℕ → ℕ) : ℕ → ℕ :=
  fun b => if drop b then E.num_classes else labels b

/-- The index `LabelEmbedder.forward` (lines 130-136) looks up in the
embedding table for sample `b`: the dropped label when `dropout_prob > 0`,
the original label otherwise. -/
def labelLookupIndex (E : LabelEmbedder) (drop : ℕ → Bool) (labels : ℕ → ℕ) : ℕ → ℕ :=
  fun b => if 0 < E.dropout_prob then tokenDropper E drop labels b else labels b

/-- `LabelEmbedder.forward` (lines 130-144): embedding-table lookup of the
(possibly dropped) labels. -/
def labelForward (E : LabelEmbedder) (drop : ℕ → Bool) (labels : ℕ → ℕ) : ℕ → ℕ → ℝ :=
  fun b h => E.table (labelLookupIndex E drop labels b) h

/-- The `AttentionPerceptron` module (model.py lines 244-289).  `to_2tuple`
duplicates the scalar `bias` flag and dropout probability over the two linear
layers, so one field each suffices; `norm` is a default `nn.LayerNorm`
(affine, eps 1e-5) when `ln` is set, else `nn.Identity`. -/
structure AttentionPerceptron where
  in_features : ℕ
  hidden_features : ℕ
  out_features : ℕ
  ln : Bool
  useBias : Bool
  p : ℝ
  W1 : ℕ → ℕ → ℝ
  b1 : ℕ → ℝ
  W2 : ℕ → ℕ → ℝ
  b2 : ℕ → ℝ
  g : ℕ → ℝ
  bt : ℕ → ℝ

/-- `AttentionPerceptron.__init__` (lines 251-274): `out_features` and
`hidden_features` default to `in_features` when absent; the optional
layer-norm parameters start at the framework defaults (weight 1, bias 0). -/
def perceptronInit (in_features : ℕ) (hidden_features out_features : Option ℕ)
    (layer_norm bias : Bool) (dropout_prob : ℝ) (d1 d2 : LinearDraw) :
    AttentionPerceptron :=
  { in_features := in_features,
    hidden_features := hidden_features.getD in_features,
    out_features := out_features.getD in_features,
    ln := layer_norm,
    useBias := bias,
    p := dropout_prob,
    W1 := d1.W, b1 := d1.b, W2 := d2.W, b2 := d2.b,
    g := fun _ => 1, bt := fun _ => 0 }

/-- `AttentionPerceptron.forward` (lines 276-289): `fc1 -> GELU(tanh) ->
dropout -> (LayerNorm | Identity) -> fc2 -> dropout`, with the two realized
dropout keep-masks passed in. -/
def perceptronForward (P : AttentionPerceptron) (k1 k2 : ℕ → ℕ → ℕ → Bool)
    (x : ℕ → ℕ → ℕ → ℝ) : ℕ → ℕ → ℕ → ℝ :=
  dropout P.p k2
    (linear3 P.hidden_features P.W2 (biasIf P.useBias P.b2)
      ((if P.ln then layerNormAff P.hidden_features (1 / 100000) true P.g P.bt else id)
        (dropout P.p k1
          (fun b l h => geluTanh (linear3 P.in_features P.W1 (biasIf P.useBias P.b1) x b l h)))))

/-- The `DiffusionTransformer` block (model.py lines 292-353). -/
structure DiffusionTransformer where
  hidden_size : ℕ
  eps : ℝ
  affine : Bool
  g1 : ℕ → ℝ
  bt1 : ℕ → ℝ
  g2 : ℕ → ℝ
  bt2 : ℕ → ℝ
  attention : Attention
  perceptron : AttentionPerceptron
  adaW : ℕ → ℕ → ℝ
  adaB : ℕ → ℝ

/-- `DiffusionTransformer.__init__` (lines 297-332): two layer norms, the
attention module (whose constructor can fail), the perceptron with hidden
width `int(hidden_size * mlp_factor)` (Python `int()` truncation; the
configured factor is nonnegative), and `adaptiveLN = SiLU -> Linear(H, 6H)`.
No parameter is zeroed here: every linear layer keeps its default
initialization draw. -/
def ditInit (attention_embedding_size attention_heads hidden_size : ℕ)
    (mlp_factor : ℚ) (layernorm_affine : Bool) (layernorm_epsilon : ℝ)
    (perceptron_dropout_rate : ℝ) (perceptron_bias perceptron_layernorm : Bool)
    (dq dk dv dp1 dp2 dada : LinearDraw) : Option DiffusionTransformer :=
  (attentionInit attention_embedding_size attention_heads dq dk dv).map
    (fun A =>
      { hidden_size := hidden_size,
        eps := layernorm_epsilon,
        affine := layernorm_affine,
        g1 := fun _ => 1, bt1 := fun _ => 0,
        g2 := fun _ => 1, bt2 := fun _ => 0,
        attention := A,
        perceptron :=
          perceptronInit hidden_size
            (some (⌊(hidden_size : ℚ) * mlp_factor⌋.toNat)) (some hidden_size)
            perceptron_layernorm perceptron_bias perceptron_dropout_rate dp1 dp2,
        adaW := dada.W, adaB := dada.b })

/-- Line 336: `self.adaptiveLN(c)`, i.e. `Linear(H, 6H)` applied to
`SiLU(c)`, of shape `[B, 6H]`. -/
def ditAdaLNout (M : DiffusionTransformer) (c : ℕ → ℕ → ℝ) : ℕ → ℕ → ℝ :=
  linear2 M.hidden_size M.adaW M.adaB (fun b h => silu (c b h))

/-- Lines 335-337: `.chunk(6, dim=1)` piece `p` of the adaLN output — piece
`p` holds columns `[p*H, (p+1)*H)`.  Pieces 0..5 are attn shift/scale/gate
and mlp shift/scale/gate. -/
def ditChunk (M : DiffusionTransformer) (c : ℕ → ℕ → ℝ) (p : ℕ) : ℕ → ℕ → ℝ :=
  fun b h => ditAdaLNout M c b (p * M.hidden_size + h)

/-- Line 338: `attn_input = modulate(self.norm1(x), attn_shift, attn_scale)`. -/
def ditAttnInput (M : DiffusionTransformer) (x : ℕ → ℕ → ℕ → ℝ) (c : ℕ → ℕ → ℝ) :
    ℕ → ℕ → ℕ → ℝ :=
  modulate (layerNormAff M.hidden_size M.eps M.affine M.g1 M.bt1 x)
    (ditChunk M c 0) (ditChunk M c 1)

/-- Lines 339-343: `attn_out = x + attn_gate.unsqueeze(1) *
self.attention(attn_input, attn_input, attn_input)[0]` (no mask). -/
def ditAttnOut (M : DiffusionTransformer) (Bsz T : ℕ) (x : ℕ → ℕ → ℕ → ℝ)
    (c : ℕ → ℕ → ℝ) : ℕ → ℕ → ℕ → ℝ :=
  fun b l h =>
    x b l h + ditChunk M c 2 b h *
      attentionContext M.attention Bsz T (ditAttnInput M x c) (ditAttnInput M x c)
        (ditAttnInput M x c) none b l h

/-- Line 344: `perceptron_input = modulate(self.norm2(attn_out), mlp_shift,
mlp_scale)`. -/
def ditPerceptronInput (M : DiffusionTransformer) (Bsz T : ℕ) (x : ℕ → ℕ → ℕ → ℝ)
    (c : ℕ → ℕ → ℝ) : ℕ → ℕ → ℕ → ℝ :=
  modulate (layerNormAff M.hidden_size M.eps M.affine M.g2 M.bt2 (ditAttnOut M Bsz T x c))
    (ditChunk M c 3) (ditChunk M c 4)

/-- `DiffusionTransformer.forward` (lines 334-353).  Line 345 is
`x = x + mlp_gate.unsqueeze(1) * self.perceptron(perceptron_input)` where `x`
is still the block's original input — the attention residual `attn_out` feeds
only `norm2`, not this final addition. -/
def ditForward (M : DiffusionTransformer) (Bsz T : ℕ) (k1 k2 : ℕ → ℕ → ℕ → Bool)
    (x : ℕ → ℕ → ℕ → ℝ) (c : ℕ → ℕ → ℝ) : ℕ → ℕ → ℕ → ℝ :=
  fun b l h =>
    x b l h + ditChunk M c 5 b h *
      perceptronForward M.perceptron k1 k2 (ditPerceptronInput M Bsz T x c) b l h

/-- The `FinalLayer` module (model.py lines 356-382). -/
structure FinalLayer where
  hidden_size : ℕ
  out_features : ℕ
  linW : ℕ → ℕ → ℝ
  linB : ℕ → ℝ
  adaW : ℕ → ℕ → ℝ
  adaB : ℕ → ℝ

/-- `FinalLayer.__init__` (lines 361-369): a non-affine LayerNorm,
`linear = Linear(H, patch_size * patch_size * out_channels)` and
`AdaptiveLN = SiLU -> Linear(H, 2H)`.  No parameter is zeroed here: both
linear layers keep their default initialization draws. -/
def finalLayerInit (hidden_size patch_size out_channels : ℕ)
    (dlin dada : LinearDraw) : FinalLayer :=
  { hidden_size := hidden_size,
    out_features := patch_size * patch_size * out_channels,
    linW := dlin.W, linB := dlin.b,
    adaW := dada.W, adaB := dada.b }

/-- Line 372: `self.AdaptiveLN(c)`, of shape `[B, 2H]`. -/
def finalAdaOut (F : FinalLayer) (c : ℕ → ℕ → ℝ) : ℕ → ℕ → ℝ :=
  linear2 F.hidden_size F.adaW F.adaB (fun b h => silu (c b h))

/-- `FinalLayer.forward` (lines 371-382): chunk the adaLN output into shift
(columns `[0, H)`) and scale (columns `[H, 2H)`), modulate the non-affine
LayerNorm (eps 1e-6), then apply the final linear layer. -/
def finalForward (F : FinalLayer) (x : ℕ → ℕ → ℕ → ℝ) (c : ℕ → ℕ → ℝ) :
    ℕ → ℕ → ℕ → ℝ :=
  linear3 F.hidden_size F.linW F.linB
    (modulate (layerNormBase F.hidden_size (1 / 1000000) x)
      (fun b h => finalAdaOut F c b h)
      (fun b h => finalAdaOut F c b (F.hidden_size + h)))

/-- The external initialization the module-level test code performs on a
`DiffusionTransformer` (model.py lines 445-446):
`nn.init.constant_(DiT.adaptiveLN[-1].weight, 0)` and likewise for the bias. -/
def ditTesterZeroInit (M : DiffusionTransformer) : DiffusionTransformer :=
  { M with adaW := fun _ _ => 0, adaB := fun _ => 0 }

/-- The external initialization the module-level test code performs on a
`FinalLayer` (model.py lines 457-460): `nn.init.constant_` zeroes of
`AdaptiveLN[-1]` weight/bias and `linear` weight/bias. -/
def finalTesterZeroInit (F : FinalLayer) : FinalLayer :=
  { F with adaW := fun _ _ => 0, adaB := fun _ => 0,
           linW := fun _ _ => 0, linB := fun _ => 0 }

end

noncomputable section

/-- C1: the claim says query, key and value are each projected by their own
linear layer.  In the source (model.py lines 185-193) all three inputs go
through `self.query_projection`; `key_projection` and `value_projection` are
constructed but never invoked.  Hence both outputs of `Attention.forward` are
unchanged when the key and value projection parameters are replaced by
arbitrary other values: those parameters are never used. -/
theorem c1_key_value_projections_never_used (A : Attention)
    (Wk2 : ℕ → ℕ → ℝ) (bk2 : ℕ → ℝ) (Wv2 : ℕ → ℕ → ℝ) (bv2 : ℕ → ℝ)
    (Bsz L : ℕ) (q k v : ℕ → ℕ → ℕ → ℝ) (mask : Option (ℕ → ℕ → ℕ → Bool)) :
    attentionContext { A with Wk := Wk2, bk := bk2, Wv := Wv2, bv := bv2 } Bsz L q k v mask =
      attentionContext A Bsz L q k v mask ∧
    attentionMatrix { A with Wk := Wk2, bk := bk2, Wv := Wv2, bv := bv2 } Bsz L q k mask =
      attentionMatrix A Bsz L q k mask :=
  ⟨rfl, rfl⟩

/-- A legal outcome of the framework's default initialization draw for a
`Linear(1, ...)` layer: every weight 1/2 (the Kaiming-uniform bound for
`fan_in = 1` is 1). -/
def halfDraw : LinearDraw := { W := fun _ _ => 1 / 2, b := fun _ => 0 }

/-- C4 counterexample: immediately after construction (before any external
initialization step) `FinalLayer`'s output linear weight equals whatever the
default random draw produced — here 1/2, not 0.  The constructors contain no
zeroing; the claim's postcondition fails. -/
theorem c4_cex_constructed_weights_not_zero :
    (finalLayerInit 1 1 1 halfDraw zeroDraw).linW 0 0 = 1 / 2 ∧ (1 / 2 : ℝ) ≠ 0 :=
  ⟨rfl, by norm_num⟩

/-- C4 (amended): the zeroing of the adaLN conditioning projection and of
`FinalLayer`'s output linear layer is the explicit external step the
module-level test code performs (model.py lines 445-446 and 457-460); after
that step those weights and biases are all zero, whatever the constructors
produced. -/
theorem c4_zero_after_external_init_step (M : DiffusionTransformer) (F : FinalLayer)
    (i j : ℕ) :
    (ditTesterZeroInit M).adaW i j = 0 ∧ (ditTesterZeroInit M).adaB i = 0 ∧
    (finalTesterZeroInit F).adaW i j = 0 ∧ (finalTesterZeroInit F).adaB i = 0 ∧
    (finalTesterZeroInit F).linW i j = 0 ∧ (finalTesterZeroInit F).linB i = 0 :=
  ⟨rfl, rfl, rfl, rfl, rfl, rfl⟩

/-- C7: a `FinalLayer` whose output linear weight/bias and AdaptiveLN
weight/bias are all zero returns an all-zero tensor on every input `x`, `c`:
the final linear layer multiplies the modulated layer norm by zero weights and
adds a zero bias. -/
theorem c7_final_layer_zero_weights_zero_output
    (hidden patch outc : ℕ) (dlin dada : LinearDraw)
    (hW : ∀ o h, dlin.W o h = 0) (hb : ∀ o, dlin.b o = 0)
    (haW : ∀ o h, dada.W o h = 0) (hab : ∀ o, dada.b o = 0)
    (x : ℕ → ℕ → ℕ → ℝ) (c : ℕ → ℕ → ℝ) (b l o : ℕ) :
    finalForward (finalLayerInit hidden patch outc dlin dada) x c b l o = 0 := by
  simp [finalForward, finalLayerInit, linear3, hW, hb]

/-- C7 witness: the zero-drawn `FinalLayer` on a concrete nonzero input. -/
theorem c7_witness :
    finalForward (finalLayerInit 1 1 1 zeroDraw zeroDraw)
      (fun _ _ _ => 3) (fun _ _ => 5) 0 0 0 = 0 :=
  c7_final_layer_zero_weights_zero_output 1 1 1 zeroDraw zeroDraw
    (fun _ _ => rfl) (fun _ => rfl) (fun _ _ => rfl) (fun _ => rfl)
    (fun _ _ _ => 3) (fun _ _ => 5) 0 0 0

/-- C9 counterexample: `Attention(0, 0)` fails at construction (Python raises
`ZeroDivisionError` evaluating `0 % 0`) even though 0 divides 0, so
construction does not succeed for every divisible pair. -/
theorem c9_cex_zero_heads :
    attentionInit 0 0 zeroDraw zeroDraw zeroDraw = none ∧ (0 : ℕ) ∣ 0 :=
  ⟨rfl, dvd_refl 0⟩

/-- C9 (amended): for every positive head count, constructing `Attention`
succeeds exactly when the head count divides the attention dimension, and
fails (the line-159 assertion) otherwise; with zero heads construction always
fails in the modulus computation. -/
theorem c9_init_succeeds_iff_divisible
    (attention_dimension attention_heads : ℕ) (dq dk dv : LinearDraw)
    (h : 1 ≤ attention_heads) :
    (attentionInit attention_dimension attention_heads dq dk dv).isSome = true ↔
      attention_heads ∣ attention_dimension := by
  have h0 : attention_heads ≠ 0 := by omega
  rw [attentionInit, if_neg h0, Nat.dvd_iff_mod_eq_zero]
  by_cases hm : attention_dimension % attention_heads = 0
  · rw [if_pos hm]; simp [hm]
  · rw [if_neg hm]; simp [hm]

/-- C9 witness: `Attention(4, 2)` succeeds and 2 divides 4. -/
theorem c9_witness :
    (attentionInit 4 2 zeroDraw zeroDraw zeroDraw).isSome = true ↔ (2 : ℕ) ∣ 4 :=
  c9_init_succeeds_iff_divisible 4 2 zeroDraw zeroDraw zeroDraw (by norm_num)

/-- C10: with `dropout_prob > 0` the embedding table has `num_classes + 1`
rows, and for every realized drop pattern and every label batch with values in
`[0, num_classes)`, every index `forward` looks up — an original label or the
sentinel `num_classes` — is below the table's row count. -/
theorem c10_label_lookup_within_table
    (num_classes hidden : ℕ) (p : ℚ) (table : ℕ → ℕ → ℝ)
    (drop : ℕ → Bool) (labels : ℕ → ℕ) (B : ℕ)
    (hp : 0 < p) (hl : ∀ b, b < B → labels b < num_classes) (b : ℕ) (hb : b < B) :
    (labelEmbedderInit num_classes hidden p table).table_rows = num_classes + 1 ∧
    labelLookupIndex (labelEmbedderInit num_classes hidden p table) drop labels b <
      (labelEmbedderInit num_classes hidden p table).table_rows := by
  have hrows : (labelEmbedderInit num_classes hidden p table).table_rows = num_classes + 1 := by
    simp [labelEmbedderInit, hp]
  refine ⟨hrows, ?_⟩
  rw [hrows]
  simp only [labelLookupIndex, labelEmbedderInit, tokenDropper, if_pos hp]
  by_cases hd : drop b
  · simp [hd]
  · simp only [hd, if_neg]
    exact Nat.lt_succ_of_lt (hl b hb)

/-- C10 witness: two classes, dropout probability 1/10, a dropped sample. -/
theorem c10_witness :
    (labelEmbedderInit 2 1 (1 / 10) (fun _ _ => 0)).table_rows = 2 + 1 ∧
    labelLookupIndex (labelEmbedderInit 2 1 (1 / 10) (fun _ _ => 0))
      (fun _ => true) (fun _ => 1) 0 <
      (labelEmbedderInit 2 1 (1 / 10) (fun _ _ => 0)).table_rows :=
  c10_label_lookup_within_table 2 1 (1 / 10) (fun _ _ => 0) (fun _ => true)
    (fun _ => 1) 1 (by norm_num) (fun _ _ => by norm_num) 0 (by norm_num)

/-- For frequency-embedding sizes of at least 2 the `time_stepper` output has
exactly `embedding_size` columns (the odd-size pad contributes its one
column); for size 1 the output is empty. -/
theorem timeStepperWidth_eq_self (F : ℕ) (h : 2 ≤ F) : timeStepperWidth F = F := by
  unfold timeStepperWidth timeStepperHalf
  split <;> omega

/-- C5 (amended): for every frequency embedding size of at least 2 (odd or
even), `TimestepEmbedder.forward` succeeds and its output column count is
exactly the hidden size `H` (with one row per timestep, i.e. shape `[B, H]`). -/
theorem c5_timestep_forward_shape (E : TimestepEmbedder)
    (h : 2 ≤ E.frequency_embedding_size) (t : ℕ → ℝ) :
    ∃ e, timestepForward E t = some (E.timestep_hidden_size, e) := by
  rw [timestepForward]
  unfold linearChecked
  rw [timeStepperWidth_eq_self _ h]
  simp only [ite_true, Option.some_bind, ite_self, if_pos]
  exact ⟨_, rfl⟩

/-- C5 witness: a concrete embedder with frequency size 3 (odd) succeeds. -/
theorem c5_witness :
    ∃ e, timestepForward (timestepEmbedderInit 2 3 true zeroDraw zeroDraw) (fun _ => 1) =
      some ((timestepEmbedderInit 2 3 true zeroDraw zeroDraw).timestep_hidden_size, e) :=
  c5_timestep_forward_shape (timestepEmbedderInit 2 3 true zeroDraw zeroDraw)
    (by norm_num [timestepEmbedderInit]) (fun _ => 1)

/-- C5 counterexample: with the positive (odd) frequency embedding size 1 the
`time_stepper` output has zero columns — `embedding[:, :1]` of an empty
embedding is still empty — so the perceptron's first linear layer fails with a
shape mismatch and `forward` returns no `[B, H]` tensor at all. -/
theorem c5_cex_size_one_fails :
    timestepForward (timestepEmbedderInit 1 1 true zeroDraw zeroDraw) (fun _ => 0) = none := by
  rw [timestepForward]
  unfold linearChecked
  norm_num [timestepEmbedderInit, timeStepperWidth, timeStepperHalf]

/-- C6: whenever the adaLN conditioning projection outputs all zeros on `c`
(so all six chunks — both shifts, scales and gates — are zero), the block
returns exactly its input `x`, independently of `c`, of the dropout draws and
of every other parameter: the final residual multiplies the perceptron branch
by the zero mlp gate. -/
theorem c6_dit_identity_when_adaLN_zero (M : DiffusionTransformer) (Bsz T : ℕ)
    (k1 k2 : ℕ → ℕ → ℕ → Bool) (x : ℕ → ℕ → ℕ → ℝ) (c : ℕ → ℕ → ℝ)
    (hz : ∀ b j, ditAdaLNout M c b j = 0) (b l h : ℕ) :
    ditForward M Bsz T k1 k2 x c b l h = x b l h := by
  simp [ditForward, ditChunk, hz]

/-- A transformer block whose adaLN projection carries the all-zero draw
(hidden size 1, one attention head, trivial perceptron). -/
def ditZ : DiffusionTransformer :=
  { hidden_size := 1, eps := 1 / 1000000, affine := false,
    g1 := fun _ => 1, bt1 := fun _ => 0, g2 := fun _ => 1, bt2 := fun _ => 0,
    attention := { num_heads := 1, div_dimension := 1, dim := 1,
                   Wq := fun _ _ => 0, bq := fun _ => 0, Wk := fun _ _ => 0,
                   bk := fun _ => 0, Wv := fun _ _ => 0, bv := fun _ => 0 },
    perceptron := perceptronInit 1 (some 1) (some 1) false true 0 zeroDraw zeroDraw,
    adaW := fun _ _ => 0, adaB := fun _ => 0 }

/-- C6 witness: the zero-adaLN block leaves a concrete nonzero input unchanged
for a nonzero conditioning vector. -/
theorem c6_witness :
    ditForward ditZ 1 1 (fun _ _ _ => true) (fun _ _ _ => true)
      (fun _ _ _ => 5) (fun _ _ => 7) 0 0 0 = (fun _ _ _ => (5 : ℝ)) 0 0 0 :=
  c6_dit_identity_when_adaLN_zero ditZ 1 1 (fun _ _ _ => true) (fun _ _ _ => true)
    (fun _ _ _ => 5) (fun _ _ => 7)
    (fun b j => by simp [ditAdaLNout, linear2, ditZ]) 0 0 0

/-- C8: for an `Attention` module successfully constructed from a dimension
divisible by the head count, on `[B, T, H]` inputs with no mask the context
tensor has shape `[B, T, H]`, the attention-weight tensor has shape
`[B * num_heads, T, T]`, and every row of the weight tensor sums to 1. -/
theorem c8_attention_dims_and_row_sums
    (attention_dimension attention_heads Bsz T : ℕ) (dq dk dv : LinearDraw)
    (A : Attention)
    (hA : attentionInit attention_dimension attention_heads dq dk dv = some A)
    (hdim : 1 ≤ attention_dimension) (hB : 1 ≤ Bsz) (hT : 1 ≤ T)
    (q k : ℕ → ℕ → ℕ → ℝ) (m i : ℕ) :
    attentionContextDims A Bsz T = (Bsz, T, attention_dimension) ∧
    attentionWeightDims A Bsz T = (Bsz * attention_heads, T, T) ∧
    ∑ j ∈ range T, attentionMatrix A Bsz T q k none m i j = 1 := by
  rw [attentionInit] at hA
  by_cases h0 : attention_heads = 0
  · rw [if_pos h0] at hA; exact absurd hA (by simp)
  rw [if_neg h0] at hA
  by_cases hm : attention_dimension % attention_heads = 0
  case neg => rw [if_neg hm] at hA; exact absurd hA (by simp)
  rw [if_pos hm] at hA
  have hA2 := Option.some.inj hA
  subst hA2
  have hdvd : attention_heads ∣ attention_dimension := Nat.dvd_of_mod_eq_zero hm
  have hnd : attention_heads * (attention_dimension / attention_heads) =
      attention_dimension := Nat.mul_div_cancel' hdvd
  have hdpos : 1 ≤ attention_dimension / attention_heads :=
    Nat.div_pos (Nat.le_of_dvd (by omega) hdvd) (by omega)
  have hbdpos : 0 < Bsz * attention_dimension := by positivity
  have hlen : attnMergedLen
      { num_heads := attention_heads,
        div_dimension := attention_dimension / attention_heads,
        dim := attention_dimension,
        Wq := dq.W, bq := dq.b, Wk := dk.W, bk := dk.b, Wv := dv.W, bv := dv.b }
      Bsz T = T := by
    show Bsz * T * (attention_heads * (attention_dimension / attention_heads)) /
        (Bsz * attention_heads * (attention_dimension / attention_heads)) = T
    rw [mul_assoc Bsz attention_heads, hnd,
      show Bsz * T * attention_dimension = T * (Bsz * attention_dimension) from by ring]
    exact Nat.mul_div_cancel _ hbdpos
  refine ⟨?_, ?_, ?_⟩
  · simp only [attentionContextDims, hlen]
    rw [hnd,
      show Bsz * attention_heads * T * (attention_dimension / attention_heads) =
        T * (Bsz * (attention_heads * (attention_dimension / attention_heads))) from by ring,
      hnd, Nat.mul_div_cancel _ hbdpos]
  · simp only [attentionWeightDims, hlen]
  · have hpos : 0 < ∑ j2 ∈ range T, expVal
        (maskedScore
          { num_heads := attention_heads,
            div_dimension := attention_dimension / attention_heads,
            dim := attention_dimension,
            Wq := dq.W, bq := dq.b, Wk := dk.W, bk := dk.b, Wv := dv.W, bv := dv.b }
          Bsz q k none m i j2) := by
      apply Finset.sum_pos
      · intro j2 _
        show 0 < expVal (some _)
        exact Real.exp_pos _
      · exact Finset.nonempty_range_iff.mpr (by omega)
    simp only [attentionMatrix]
    rw [← Finset.sum_div]
    exact div_self (ne_of_gt hpos)

/-- A one-head, one-dimensional attention module with the all-zero draw, as
produced by `attentionInit 1 1`. -/
def attn1 : Attention :=
  { num_heads := 1, div_dimension := 1, dim := 1,
    Wq := fun _ _ => 0, bq := fun _ => 0, Wk := fun _ _ => 0, bk := fun _ => 0,
    Wv := fun _ _ => 0, bv := fun _ => 0 }

/-- C8 witness: the concrete module on a one-token batch. -/
theorem c8_witness :
    attentionContextDims attn1 1 1 = (1, 1, 1) ∧
    attentionWeightDims attn1 1 1 = (1 * 1, 1, 1) ∧
    ∑ j ∈ range 1, attentionMatrix attn1 1 1 (fun _ _ _ => 2) (fun _ _ _ => 3) none 0 0 j = 1 :=
  c8_attention_dims_and_row_sums 1 1 1 1 zeroDraw zeroDraw zeroDraw attn1 rfl
    (by norm_num) (by norm_num) (by norm_num) (fun _ _ _ => 2) (fun _ _ _ => 3) 0 0

/-- Two heads of dimension one (`attentionInit 2 2` with the zero draw). -/
def attn2 : Attention :=
  { num_heads := 2, div_dimension := 1, dim := 2,
    Wq := fun _ _ => 0, bq := fun _ => 0, Wk := fun _ _ => 0, bk := fun _ => 0,
    Wv := fun _ _ => 0, bv := fun _ => 0 }

/-- C2: with batch size 2, two heads, two tokens, and a mask marking position
`(batch 0, i = 0, j = 0)` masked, the returned weight entry for batch 0,
head 1, query 0, key 0 — merged row `h*B + b = 2` under the head-major layout
the code itself uses to un-merge the context (line 225) — equals 1/2, not 0:
the mask rows are flattened batch-major (`b*N + h`) onto a head-major score
tensor, so row 2 receives batch 1's (empty) mask row instead. -/
theorem c2_masked_position_keeps_positive_weight :
    attentionMatrix attn2 2 2 (fun _ _ _ => 0) (fun _ _ _ => 0)
      (some (fun b _ j => b == 0 && j == 0)) 2 0 0 = 1 / 2 ∧ (1 / 2 : ℝ) ≠ 0 := by
  constructor
  · norm_num [attentionMatrix, maskedScore, attentionScore, projMerged, attn2, expVal,
      Finset.sum_range_succ, Real.exp_zero, Real.sqrt_one]
  · norm_num

/-- One head of dimension one with zero query weight but query bias 1, so the
(shared) projection of every input is the constant 1. -/
def attn3 : Attention :=
  { num_heads := 1, div_dimension := 1, dim := 1,
    Wq := fun _ _ => 0, bq := fun _ => 1, Wk := fun _ _ => 0, bk := fun _ => 0,
    Wv := fun _ _ => 0, bv := fun _ => 0 }

/-- A trivial perceptron (all weights and biases zero, no layer norm, no
dropout), as `AttentionPerceptron(1, 1, 1, False, True, 0.0)` with the zero
draw. -/
def perc3 : AttentionPerceptron :=
  perceptronInit 1 (some 1) (some 1) false true 0 zeroDraw zeroDraw

/-- A hidden-size-one block whose adaLN linear layer has zero weight and bias
`(0, 0, 1, 0, 0, 0)`: on `c = 0` the attention gate is 1 and everything else
(shifts, scales, mlp gate) is 0. -/
def dit3 : DiffusionTransformer :=
  { hidden_size := 1, eps := 1 / 1000000, affine := false,
    g1 := fun _ => 1, bt1 := fun _ => 0, g2 := fun _ => 1, bt2 := fun _ => 0,
    attention := attn3, perceptron := perc3,
    adaW := fun _ _ => 0, adaB := fun j => if j = 2 then 1 else 0 }

/-- C3: on `dit3` with `x = 0`, `c = 0` (batch 1, one token, hidden size 1)
the attention sub-layer output `attn_out` is 1, so the claimed block output
`attn_out + mlp_gate * MLP(modulate(norm2(attn_out), ...))` is 1 — but
`DiffusionTransformer.forward` returns 0, because line 345 adds the gated
perceptron branch to the original input `x`, not to `attn_out`. -/
theorem c3_mlp_residual_skips_attention_output :
    ditForward dit3 1 1 (fun _ _ _ => true) (fun _ _ _ => true)
      (fun _ _ _ => 0) (fun _ _ => 0) 0 0 0 = 0 ∧
    ditAttnOut dit3 1 1 (fun _ _ _ => 0) (fun _ _ => 0) 0 0 0 +
      ditChunk dit3 (fun _ _ => 0) 5 0 0 *
        perceptronForward dit3.perceptron (fun _ _ _ => true) (fun _ _ _ => true)
          (ditPerceptronInput dit3 1 1 (fun _ _ _ => 0) (fun _ _ => 0)) 0 0 0 = 1 := by
  have hada : ∀ b j, ditAdaLNout dit3 (fun _ _ => 0) b j = if j = 2 then 1 else 0 := by
    intro b j
    simp [ditAdaLNout, linear2, dit3]
  have hchunk : ∀ p b h, ditChunk dit3 (fun _ _ => 0) p b h =
      if p * 1 + h = 2 then 1 else 0 := by
    intro p b h
    simp only [ditChunk, hada]
    norm_num [dit3]
  have hproj : ∀ (x : ℕ → ℕ → ℕ → ℝ) m l d, projMerged attn3 1 x m l d = 1 := by
    intro x m l d
    simp [projMerged, attn3]
  have hsc : ∀ (q k : ℕ → ℕ → ℕ → ℝ) m i j, attentionScore attn3 1 q k m i j = 1 := by
    intro q k m i j
    simp only [attentionScore, hproj]
    norm_num [attn3, Real.sqrt_one]
  have hmat : ∀ (q k : ℕ → ℕ → ℕ → ℝ) m i j,
      attentionMatrix attn3 1 1 q k none m i j = 1 := by
    intro q k m i j
    simp only [attentionMatrix, maskedScore, hsc, expVal, Finset.sum_range_one]
    exact div_self (Real.exp_ne_zero 1)
  have hctx : ∀ (q k v : ℕ → ℕ → ℕ → ℝ) b l f,
      attentionContext attn3 1 1 q k v none b l f = 1 := by
    intro q k v b l f
    simp only [attentionContext, hmat, hproj, Finset.sum_range_one]
    norm_num [attn3]
  have hDA : dit3.attention = attn3 := rfl
  have haout : ∀ b l,
      ditAttnOut dit3 1 1 (fun _ _ _ => 0) (fun _ _ => 0) b l 0 = 1 := by
    intro b l
    simp only [ditAttnOut, hDA, hctx, hchunk]
    norm_num
  have hln : ∀ b l,
      layerNormAff dit3.hidden_size dit3.eps dit3.affine dit3.g2 dit3.bt2
        (ditAttnOut dit3 1 1 (fun _ _ _ => 0) (fun _ _ => 0)) b l 0 = 0 := by
    intro b l
    simp only [layerNormAff, layerNormBase, show dit3.affine = false from rfl,
      show dit3.hidden_size = 1 from rfl, Finset.sum_range_one, haout]
    norm_num
  have hpin : ∀ b l,
      ditPerceptronInput dit3 1 1 (fun _ _ _ => 0) (fun _ _ => 0) b l 0 = 0 := by
    intro b l
    simp only [ditPerceptronInput, modulate, hln, hchunk]
    norm_num
  have hperc : ∀ (x : ℕ → ℕ → ℕ → ℝ) (k1 k2 : ℕ → ℕ → ℕ → Bool) b l o,
      perceptronForward dit3.perceptron k1 k2 x b l o = 0 := by
    intro x k1 k2 b l o
    simp [perceptronForward, dropout, linear3, show dit3.perceptron = perc3 from rfl,
      perc3, perceptronInit, zeroDraw, biasIf]
  constructor
  · simp [ditForward, hperc]
  · rw [haout 0 0, hperc, hchunk]
    norm_num

end
